import Mathlib

/-!
# A shallow embedding of the GED streaming parser

This file embeds, in Lean 4, the streaming `.ged` parser of the repository
(`lib/ged/ged_parser.py` together with its helpers in `lib/ged/utils.py`)
and proves properties of the embedding.

Modelling conventions:
* Python strings are `String`; all string primitives used by the source
  (`split(" ")`, `strip()`, `lower()`, `capitalize()`, `replace`, `find`,
  slicing) are re-implemented on `List Char` so that every definition
  evaluates inside the kernel.
* Python exceptions are modelled with `Except PyErr`; a function that cannot
  raise returns its value directly.
* Python `dict`s are insertion-ordered association lists with unique keys
  (`Dict`); `dset` overwrites in place like a Python assignment and `dget`
  models `dict.get`.
* The values stored by the accumulator are either a single handler result
  (`GedScalar`: every registered handler returns a string, a string list, a
  boolean, a partial-date triple or a time) or a Python list of such results
  (the `_GED_LIST_KEYS` accumulation in `set_data`); `GedVal` is that sum.
* Converters are opaque: a converter is identified by a `Nat`, and a run of
  the parser records the list of `save_family` / `save_person` calls it made,
  in order, as pairs (converter, call).
-/

/-- The Python exceptions that the modelled code can raise. -/
inductive PyErr
  | attributeError
  | indexError
  | typeError
  | valueError (msg : String)
deriving DecidableEq

instance {ε α : Type} [DecidableEq ε] [DecidableEq α] : DecidableEq (Except ε α) := fun a b =>
  match a, b with
  | .ok x, .ok y =>
    if h : x = y then .isTrue (by rw [h]) else .isFalse (by simp [h])
  | .error x, .error y =>
    if h : x = y then .isTrue (by rw [h]) else .isFalse (by simp [h])
  | .ok _, .error _ => .isFalse (by simp)
  | .error _, .ok _ => .isFalse (by simp)

/-! ## Python string primitives -/

/-- Characters treated as whitespace by Python's `str.strip()`.
(The source only ever strips spaces, `\t`, `\n` and `\r`.) -/
def pyIsSpace (c : Char) : Bool :=
  c == ' ' || c == '\t' || c == '\n' || c == '\r' || c == '\x0b' || c == '\x0c'

/-- Python `str.strip()` (no argument): drop whitespace from both ends. -/
def pyStrip (s : String) : String :=
  String.mk (((s.toList.dropWhile pyIsSpace).reverse.dropWhile pyIsSpace).reverse)

/-- Helper for `pySplit`: Python `str.split(sep)` with a single-character
separator, on a character list.  Empty segments are kept, and the empty
string yields `[""]`, exactly as in Python. -/
def splitOnChar (c : Char) : List Char → List (List Char)
  | [] => [[]]
  | x :: xs =>
    let r := splitOnChar c xs
    if x == c then [] :: r
    else match r with
      | [] => [[x]]
      | h :: t => (x :: h) :: t

/-- Python `s.split(c)` for a one-character separator `c`. -/
def pySplit (s : String) (c : Char) : List String :=
  (splitOnChar c s.toList).map fun l => String.mk l

/-- Python `" ".join(parts)` as used by `_parse_key_value`. -/
def joinWith (sep : String) (parts : List String) : String :=
  String.intercalate sep parts

/-- Python `str.lower()` (the source only lowercases ASCII). -/
def pyLower (s : String) : String :=
  String.mk (s.toList.map Char.toLower)

/-- Python `str.capitalize()`: first character uppercased, the rest
lowercased. -/
def pyCapitalize (s : String) : String :=
  match s.toList with
  | [] => ""
  | c :: rest => String.mk (c.toUpper :: rest.map Char.toLower)

/-- Python `val.replace("@", "")`: remove every `'@'`. -/
def stripAts (s : String) : String :=
  String.mk (s.toList.filter fun c => c ≠ '@')

/-- Python `key.count("@")`. -/
def countAts (s : String) : Nat :=
  (s.toList.filter fun c => c == '@').length

/-- Python `str.find(c)` for a one-character needle: the index of the first
occurrence, as `Option` (the source only compares the result with `-1`,
which `none` stands for). -/
def pyFindChar (c : Char) : List Char → Option Nat
  | [] => none
  | x :: xs => if x == c then some 0 else (pyFindChar c xs).map (· + 1)

/-- Python `int(s)` restricted to the strings this code applies it to:
outputs of `strip_alpha`, which consist of digits only.  `int("")` raises
`ValueError`, modelled by `none`. -/
def pyIntOfDigits (s : String) : Option Nat :=
  if s ≠ "" ∧ s.toList.all Char.isDigit then
    some (s.toList.foldl (fun a c => a * 10 + (c.toNat - '0'.toNat)) 0)
  else none

/-! ## `lib/ged/utils.py` -/

/-- `utils.strip_alpha`: `re.sub("[^0-9]", "", val)` — keep the digits only
(`""` for the empty string, as the early return does). -/
def strip_alpha (val : String) : String :=
  String.mk (val.toList.filter Char.isDigit)

/-- `utils.is_int`: whether Python's `int()` accepts the string.  In this
code it is only applied to outputs of `strip_alpha` (digit-only strings),
for which acceptance means being non-empty. -/
def is_int (val : String) : Bool :=
  (pyIntOfDigits val).isSome

/-- `utils.force_int`: `int(strip_alpha(val))`, with `0` when the cast
raises `ValueError`. -/
def force_int (val : String) : Nat :=
  (pyIntOfDigits (strip_alpha val)).getD 0

/-- `utils.is_year`: a numeric string longer than two digits. -/
def is_year (val : String) : Bool :=
  is_int val && val.length > 2

/-- The month abbreviations recognised by `datetime.strptime(_, "%b")` in
the C locale. -/
def MONTH_ABBRS : List String :=
  ["jan", "feb", "mar", "apr", "may", "jun",
   "jul", "aug", "sep", "oct", "nov", "dec"]

/-- `utils.month_str_to_int`: `strptime(month, "%b").month`.  `strptime`
matches the full abbreviated month name case-insensitively; `none` models
the `ValueError` for a non-matching string. -/
def month_str_to_int (month : String) : Option Nat :=
  match MONTH_ABBRS.findIdx? (fun a => a == pyLower month) with
  | some i => some (i + 1)
  | none => none

/-- The bracket-removal loop at the top of `utils.parse_partial_date`:
repeatedly find the first `'('` and the first `')'`; when both exist and
the `'('` comes first, splice the bracketed span out, otherwise stop.
Each executed iteration removes at least two characters, so `l.length`
iterations always reach the loop's own fixpoint; the first argument is that
fuel. -/
def removeBracketsAux : Nat → List Char → List Char
  | 0, l => l
  | fuel + 1, l =>
    match pyFindChar '(' l, pyFindChar ')' l with
    | some iopen, some iclose =>
      if iopen ≥ iclose then l
      else removeBracketsAux fuel (l.take iopen ++ l.drop (iclose + 1))
    | _, _ => l

/-- The bracket-removal loop of `utils.parse_partial_date`. -/
def removeBrackets (l : List Char) : List Char :=
  removeBracketsAux l.length l

/-- One iteration of the token loop of `utils.parse_partial_date`: fold a
single whitespace-split token into the `(day, month, year)` accumulator. -/
def datePartStep (acc : Option Nat × Option Nat × Option Nat) (part : String) :
    Option Nat × Option Nat × Option Nat :=
  let (day, month, year) := acc
  let stripped := strip_alpha part
  if stripped = "" then
    -- only the month is always a string with no numbers
    let pm := pyLower part
    let pm := if pm.length > 3 then String.mk (pm.toList.take 3) else pm
    match month_str_to_int pm with
    | some m => (day, some m, year)
    | none => (day, month, year)
  else if is_year stripped then (day, month, some (force_int stripped))
  else if is_int stripped then (some (force_int stripped), month, year)
  else acc

/-- `utils.parse_partial_date` applied to a *string*, the type its doc
comment declares (`date_string (str)`): drop bracketed spans, split on
`" "`, and classify each token as day, month or year. -/
def parse_partial_date (date_string : String) : Option Nat × Option Nat × Option Nat :=
  let ds := String.mk (removeBrackets date_string.toList)
  (pySplit ds ' ').foldl datePartStep (none, none, none)

/-- `utils.parse_partial_date` as actually invoked by `_handle_date`, which
passes it the Python *list* `val.split(" ")`.  The function's first
statement is `date_string.find("(")`, and a Python `list` has no `find`
attribute, so the call raises `AttributeError` before looking at the
list's contents. -/
def parse_partial_date_on_list (_bits : List String) :
    Except PyErr (Option Nat × Option Nat × Option Nat) :=
  .error .attributeError

/-! ## Value handlers (`lib/ged/ged_parser.py`) -/

/-- A single handler result: every registered handler returns a string, a
list of strings, a boolean, a partial-date triple, or a time of day. -/
inductive GedScalar
  | str (s : String)
  | strList (l : List String)
  | boolv (b : Bool)
  | date (day month year : Option Nat)
  | time (hour minute second : Nat)
deriving DecidableEq

/-- A value stored in the accumulator's flat map: either one handler result
or the Python list grown by the `_GED_LIST_KEYS` branch of `set_data`. -/
inductive GedVal
  | scalar (v : GedScalar)
  | vlist (l : List GedScalar)
deriving DecidableEq

/-- `_handle_givennames`: `val.split(" ")`. -/
def handle_givennames (val : String) : GedScalar :=
  .strList (pySplit val ' ')

/-- `_handle_surname`: `val.capitalize()`. -/
def handle_surname (val : String) : GedScalar :=
  .str (pyCapitalize val)

/-- `_handle_married_name`: capitalize the last space-delimited token. -/
def handle_married_name (val : String) : GedScalar :=
  .str (pyCapitalize ((pySplit val ' ').getLastD ""))

/-- `_handle_gender`: `val.lower() in ["m"]`. -/
def handle_gender (val : String) : GedScalar :=
  .boolv (pyLower val == "m")

/-- `_handle_string`: the value verbatim. -/
def handle_string (val : String) : GedScalar :=
  .str val

/-- `_handle_link_id`: `val.replace("@", "")`. -/
def handle_link_id (val : String) : GedScalar :=
  .str (stripAts val)

/-- One field of `strptime(val, "%H:%M:%S")`: the field must be one or two
digits and within range (this is exactly what the `_strptime` regular
expressions for `%H`, `%M`, `%S` accept). -/
def timeField (maxv : Nat) (s : String) : Option Nat :=
  match pyIntOfDigits s with
  | some n => if 1 ≤ s.length ∧ s.length ≤ 2 ∧ n ≤ maxv then some n else none
  | none => none

/-- `_handle_time`: `datetime.strptime(val, "%H:%M:%S")`, keeping the
hour/minute/second triple; a non-matching string raises `ValueError`. -/
def handle_time (val : String) : Except PyErr GedScalar :=
  match pySplit val ':' with
  | [h, m, s] =>
    match timeField 23 h, timeField 59 m, timeField 59 s with
    | some hh, some mm, some ss => .ok (.time hh mm ss)
    | _, _, _ => .error (.valueError "time data does not match format %H:%M:%S")
  | _ => .error (.valueError "time data does not match format %H:%M:%S")

/-- `_handle_date`: `bits = val.split(" ")`, then
`utils.parse_partial_date(bits)` — the list, not the string, is passed,
so the call raises `AttributeError` (see `parse_partial_date_on_list`). -/
def handle_date (val : String) : Except PyErr GedScalar :=
  match parse_partial_date_on_list (pySplit val ' ') with
  | .ok (d, m, y) => .ok (.date d m y)
  | .error e => .error e

/-! ## Dictionaries -/

/-- A Python `dict` with `String` keys: an insertion-ordered association
list in which each key occurs at most once. -/
def Dict (V : Type) : Type := List (String × V)

instance {V : Type} [DecidableEq V] : DecidableEq (Dict V) :=
  inferInstanceAs (DecidableEq (List (String × V)))

instance {V : Type} : Membership (String × V) (Dict V) :=
  inferInstanceAs (Membership (String × V) (List (String × V)))

/-- `d.get(k)` / `d.get(k, default)` via `Option`. -/
def dget {V : Type} (d : Dict V) (k : String) : Option V :=
  match List.find? (fun p => p.1 == k) d with
  | some p => some p.2
  | none => none

/-- `d[k] = v`: overwrite in place, or append a new entry. -/
def dset {V : Type} (d : Dict V) (k : String) (v : V) : Dict V :=
  match d with
  | [] => [(k, v)]
  | (k', v') :: rest =>
    if k' == k then (k, v) :: rest else (k', v') :: dset rest k v

/-! ## The record accumulator (`_DBObj` and subclasses) -/

/-- The concrete Python class of an accumulator: `_Person` or `_Family`. -/
inductive ObjKind
  | person
  | family
deriving DecidableEq

/-- `_DBObj.ERR_LOCKED`. -/
def ERR_LOCKED : String := "You may not set values on this obj now"

/-- `_GED_LIST_KEYS`. -/
def GED_LIST_KEYS : List String := ["CHIL", "_AKA"]

/-- A `_DBObj` (`_Person` or `_Family`, distinguished by `kind`). -/
structure DBObj where
  id : String
  kind : ObjKind
  allowChanges : Bool
  multilineKey : Option String
  multiData : Dict (Dict GedScalar)
  data : Dict GedVal
deriving DecidableEq

/-- `_DBObj.__init__` (via a subclass constructor). -/
def DBObj.new (kind : ObjKind) (oid : String) : DBObj :=
  { id := oid, kind := kind, allowChanges := true,
    multilineKey := none, multiData := [], data := [] }

/-- `_DBObj.lock`. -/
def DBObj.lock (o : DBObj) : DBObj :=
  { o with allowChanges := false }

/-- Truthiness of `self._multiline_key`: `None` and `""` are falsy. -/
def keyTruthy : Option String → Bool
  | some s => s ≠ ""
  | none => false

/-- `_DBObj.set_multiline_key` (the driver passes both a key and `None`). -/
def DBObj.set_multiline_key (o : DBObj) (key : Option String) : Except PyErr DBObj :=
  if o.allowChanges then .ok { o with multilineKey := key }
  else .error (.valueError ERR_LOCKED)

/-- `_DBObj.set_data`.  While the multiline cursor is truthy the value is
assigned (as a scalar) into that block's field map; otherwise keys in
`_GED_LIST_KEYS` append to a list (`.append` on a stored non-list value
would raise `AttributeError`; such a value can never be stored under these
keys) and every other key is a plain overwriting assignment. -/
def DBObj.set_data (o : DBObj) (key : String) (parsed : GedScalar) : Except PyErr DBObj :=
  if ¬ o.allowChanges then .error (.valueError ERR_LOCKED)
  else if keyTruthy o.multilineKey then
    let mk := o.multilineKey.getD ""
    let tmp := (dget o.multiData mk).getD []
    .ok { o with multiData := dset o.multiData mk (dset tmp key parsed) }
  else if key ∈ GED_LIST_KEYS then
    match dget o.data key with
    | none => .ok { o with data := dset o.data key (.vlist [parsed]) }
    | some (.vlist ls) => .ok { o with data := dset o.data key (.vlist (ls ++ [parsed])) }
    | some (.scalar _) => .error .attributeError
  else .ok { o with data := dset o.data key (.scalar parsed) }

/-! ## Line parsing and the handler registry -/

/-- `_parse_key_value`: split the raw line on `" "`; the key is
`bits[1].strip()` — which raises `IndexError` when the line yields fewer
than two segments — and the value is `" ".join(bits[2:]).strip()`. -/
def parse_key_value (line : String) : Except PyErr (String × String) :=
  match pySplit line ' ' with
  | _ :: second :: rest =>
    .ok (pyStrip second, pyStrip (joinWith " " rest))
  | _ => .error .indexError

/-- `_HANDLERS`: the registry mapping a key to its handler and the
`is_multi` flag.  Handlers that cannot raise are wrapped in `.ok`. -/
def HANDLERS (key : String) : Option ((String → Except PyErr GedScalar) × Bool) :=
  if key = "GIVN" then some (fun v => .ok (handle_givennames v), false)
  else if key = "DATE" then some (handle_date, true)
  else if key = "TIME" then some (handle_time, true)
  else if key = "PLAC" then some (fun v => .ok (handle_string v), true)
  else if key = "NOTE" then some (fun v => .ok (handle_string v), false)
  else if key = "SEX" then some (fun v => .ok (handle_gender v), false)
  else if key = "SURN" then some (fun v => .ok (handle_surname v), false)
  else if key = "_MARNM" then some (fun v => .ok (handle_married_name v), false)
  else if key = "HUSB" then some (fun v => .ok (handle_link_id v), false)
  else if key = "WIFE" then some (fun v => .ok (handle_link_id v), false)
  else if key = "CHIL" then some (fun v => .ok (handle_link_id v), false)
  else if key = "_AKA" then some (fun v => .ok (handle_string v), false)
  else if key = "FAMC" then some (fun v => .ok (handle_link_id v), false)
  else if key = "FAMS" then some (fun v => .ok (handle_link_id v), false)
  else if key = "_UID" then some (fun v => .ok (handle_link_id v), false)
  else none

/-- Statement helper: the handler the registry holds for `key`, applied to
`value` (only meaningful for registered keys, the only ones the driver
dispatches). -/
def runKeyHandler (key value : String) : Except PyErr GedScalar :=
  match HANDLERS key with
  | some (h, _) => h value
  | none => .error .attributeError

/-- `_TYPE`: the boundary value token to concrete accumulator class. -/
def TYPE_MAP (val : String) : Option ObjKind :=
  if val = "INDI" then some .person
  else if val = "FAM" then some .family
  else none

/-- `_KEY_STOP`. -/
def KEY_STOP : String := "TRLR"

/-- `_is_new_obj_line`: the key contains exactly two `'@'`. -/
def is_new_obj_line (key : String) : Bool :=
  countAts key == 2

/-- `_decide_next_obj`: new accumulator (id = key without `'@'`, class from
`_TYPE`), or `None` for an unrecognised value token. -/
def decide_next_obj (key val : String) : Option DBObj :=
  match TYPE_MAP val with
  | some k => some (DBObj.new k (stripAts key))
  | none => none

/-! ## Saving and the driver loop (`_save`, `parse_ged_file`) -/

/-- One call made on a converter by `_save`. -/
inductive SaveCall
  | save_family (o : DBObj)
  | save_person (o : DBObj)
deriving DecidableEq

/-- Which method `_save` invokes: `save_family` when
`isinstance(some_obj, _Family)`, else `save_person`. -/
def saveCallFor (o : DBObj) : SaveCall :=
  match o.kind with
  | .family => .save_family o
  | .person => .save_person o

/-- `_save`: call the appropriate save function on every converter, in
registration order. -/
def save_to_converters (converters : List Nat) (o : DBObj) : List (Nat × SaveCall) :=
  converters.map fun c => (c, saveCallFor o)

/-- The driver's mutable state between lines: `last_obj`. -/
structure ParserState where
  lastObj : Option DBObj
deriving DecidableEq

/-- The effect of processing one already-split line. -/
inductive StepResult
  | cont (st : ParserState) (calls : List (Nat × SaveCall))
  | done (calls : List (Nat × SaveCall))
  | err (e : PyErr) (calls : List (Nat × SaveCall))
deriving DecidableEq

/-- The per-line body of `parse_ged_file`'s loop, after the line has been
split into `key` and `value`:
* a boundary key (exactly two `'@'`) or the stop key locks and saves the
  pending object, then either halts (stop key) or replaces it via
  `_decide_next_obj`;
* with no pending object the line is skipped (file header);
* an unregistered key becomes the multiline cursor;
* a registered key first clears the cursor if its `is_multi` flag is
  `False`, then runs its handler and stores the result with `set_data`. -/
def stepKV (converters : List Nat) (st : ParserState) (key value : String) : StepResult :=
  if is_new_obj_line key || key == KEY_STOP then
    let calls := match st.lastObj with
      | some o => save_to_converters converters o.lock
      | none => []
    if key == KEY_STOP then .done calls
    else .cont ⟨decide_next_obj key value⟩ calls
  else
    match st.lastObj with
    | none => .cont st []
    | some o =>
      match HANDLERS key with
      | none =>
        match o.set_multiline_key (some key) with
        | .ok o' => .cont ⟨some o'⟩ []
        | .error e => .err e []
      | some (handler, is_multi) =>
        let r : Except PyErr DBObj :=
          (if is_multi then .ok o else o.set_multiline_key none).bind fun o1 =>
            (handler value).bind fun parsed => o1.set_data key parsed
        match r with
        | .ok o' => .cont ⟨some o'⟩ []
        | .error e => .err e []

/-- Processing of one raw line: `_parse_key_value`, then `stepKV`. -/
def processLine (converters : List Nat) (st : ParserState) (line : String) : StepResult :=
  match parse_key_value line with
  | .ok (key, value) => stepKV converters st key value
  | .error e => .err e []

/-- The result of a parser run: the `save_*` calls made (in order), and the
exception that aborted the run, if any. -/
structure ParseOutcome where
  calls : List (Nat × SaveCall)
  error : Option PyErr
deriving DecidableEq

/-- The `while line:` loop of `parse_ged_file` over the sequence of lines
`readline` yields.  When the list is exhausted, `readline` returns `""`,
which is fed to `_parse_key_value` *before* the loop guard runs — and a
run that consumes the final `""` without raising stops there, since the
guard then sees the falsy line. -/
def runLines (converters : List Nat) :
    ParserState → List (Nat × SaveCall) → List String → ParseOutcome
  | st, acc, [] =>
    (match processLine converters st "" with
     | .err e calls => ⟨acc ++ calls, some e⟩
     | .done calls => ⟨acc ++ calls, none⟩
     | .cont _ calls => ⟨acc ++ calls, none⟩)
  | st, acc, l :: ls =>
    match processLine converters st l with
    | .err e calls => ⟨acc ++ calls, some e⟩
    | .done calls => ⟨acc ++ calls, none⟩
    | .cont st' calls => runLines converters st' (acc ++ calls) ls

/-- `parse_ged_file`, starting from `last_obj = None`, over the lines of
the file (each as `readline` returns it, trailing newline included).
Converters are opaque identifiers; the upfront `issubclass` check on them
is outside the model. -/
def parse_ged_file (converters : List Nat) (lines : List String) : ParseOutcome :=
  runLines converters ⟨none⟩ [] lines

/-! ## Change-timestamp assembly (`_extract_datetime`, `_Person.last_updated`) -/

/-- The result of `datetime.strptime("%d %m %Y %H %M %S", …)` when it
succeeds. -/
structure PyDateTime where
  year : Nat
  month : Nat
  day : Nat
  hour : Nat
  minute : Nat
  second : Nat
deriving DecidableEq

/-- Gregorian month lengths, as validated by `datetime`. -/
def daysInMonth (month year : Nat) : Nat :=
  if month = 2 then
    if year % 4 = 0 ∧ (year % 100 ≠ 0 ∨ year % 400 = 0) then 29 else 28
  else if month ∈ [4, 6, 9, 11] then 30 else 31

/-- `datetime.strptime(s, "%d %m %Y %H %M %S")` on the string built by
`_extract_datetime` (`"%s %s %s %d %d %d"` over six non-negative ints):
`%d`/`%m`/`%H`/`%M`/`%S` accept one or two digits within range, `%Y`
exactly four digits, and the resulting calendar date must exist. -/
def strptime6 (d m y h mi s : Nat) : Except PyErr PyDateTime :=
  if 1 ≤ d ∧ d ≤ 31 ∧ 1 ≤ m ∧ m ≤ 12 ∧ 1000 ≤ y ∧ y ≤ 9999
      ∧ h ≤ 23 ∧ mi ≤ 59 ∧ s ≤ 59 then
    if d ≤ daysInMonth m y then
      .ok { year := y, month := m, day := d, hour := h, minute := mi, second := s }
    else .error (.valueError "day is out of range for month")
  else .error (.valueError "time data does not match format")

/-- Truthiness of one component of the date triple inside
`all([d_day, d_month, d_year])`: `None` and `0` are falsy. -/
def natOptTruthy : Option Nat → Bool
  | some n => n ≠ 0
  | none => false

/-- `_extract_datetime`: unpack `record.get("DATE")` — which raises
`TypeError` when the key is absent, since `None` cannot be unpacked —
take `record.get("TIME")` or midnight, and assemble the `datetime` only
when all three date components are truthy.  (The parser stores only
`.date` triples under `"DATE"` and `.time` values under `"TIME"`; a value
of any other shape would fail the unpacking, modelled by the same
`TypeError`, or the `.hour` access, modelled by `AttributeError`.) -/
def extract_datetime (record : Dict GedScalar) : Except PyErr (Option PyDateTime) :=
  match dget record "DATE" with
  | none => .error .typeError
  | some (.date d m y) =>
    (show Except PyErr (Nat × Nat × Nat) from
      match dget record "TIME" with
      | some (.time h mi s) => .ok (h, mi, s)
      | none => .ok (0, 0, 0)
      | some _ => .error .attributeError).bind fun t =>
      if natOptTruthy d && natOptTruthy m && natOptTruthy y then
        match strptime6 (d.getD 0) (m.getD 0) (y.getD 0) t.1 t.2.1 t.2.2 with
        | .ok dt => .ok (some dt)
        | .error e => .error e
      else .ok none
  | some _ => .error .typeError

/-- `_Person.last_updated`: the `"CHAN"` block (empty when absent), handed
to `_extract_datetime` when truthy (non-empty); otherwise the implicit
`None`. -/
def DBObj.last_updated (o : DBObj) : Except PyErr (Option PyDateTime) :=
  let change_record := (dget o.multiData "CHAN").getD []
  if ¬ change_record.isEmpty then extract_datetime change_record
  else .ok none

/-! ## Shared dictionary lemmas -/

theorem dget_dset_self {V : Type} (d : Dict V) (k : String) (v : V) :
    dget (dset d k v) k = some v := by
  induction d with
  | nil => simp [dget, dset, List.find?]
  | cons p rest ih =>
    obtain ⟨k', v'⟩ := p
    by_cases h : k' = k
    · subst h
      simp [dget, dset, List.find?]
    · simpa [dget, dset, List.find?, h] using ih

/-! ## The claims -/

/-- **C1.**  The claimed round-trip stream — one Family boundary line, a
husband link, a wife link, a `MARR` line with nested `DATE` and `PLAC`
lines, then the terminator — does *not* yield a `save_family` call: at the
`DATE` line `_handle_date` hands the Python list `val.split(" ")` to
`parse_partial_date`, whose `date_string.find("(")` raises
`AttributeError`, so the run aborts with zero save calls.  The second
conjunct shows the same stream without the `DATE` line round-trips as the
claim describes (husband/wife `@`-stripped, place verbatim), isolating the
date handler as the sole failure. -/
theorem C1_round_trip_stream_raises :
    parse_ged_file [0]
        ["0 @F1@ FAM\n", "1 HUSB @I1@\n", "1 WIFE @I2@\n",
         "1 MARR\n", "2 DATE 15 Jan 1920\n", "2 PLAC London\n", "0 TRLR\n"] =
      { calls := [], error := some .attributeError } ∧
    parse_ged_file [0]
        ["0 @F1@ FAM\n", "1 HUSB @I1@\n", "1 WIFE @I2@\n",
         "1 MARR\n", "2 PLAC London\n", "0 TRLR\n"] =
      { calls := [(0, .save_family
          { id := "F1", kind := .family, allowChanges := false,
            multilineKey := some "MARR",
            multiData := [("MARR", [("PLAC", GedScalar.str "London")])],
            data := [("HUSB", GedVal.scalar (GedScalar.str "I1")),
                     ("WIFE", GedVal.scalar (GedScalar.str "I2"))] })],
        error := none } := by
  exact ⟨by decide, by decide⟩

/-- **C3.**  The `DATE` handler never returns a `(day, month, year)`
triple: it raises `AttributeError` on every input, because it passes the
split *list* to `parse_partial_date` (whose first statement calls the
string method `find` on it).  The date heuristic itself, applied to the
raw string as `parse_partial_date`'s doc comment specifies, does produce
exactly the claimed triples on the four documented examples. -/
theorem C3_date_handler_raises :
    (∀ val : String, handle_date val = .error .attributeError) ∧
    parse_partial_date "abt 1850" = (none, none, some 1850) ∧
    parse_partial_date "15 Jan 1920" = (some 15, some 1, some 1920) ∧
    parse_partial_date "Jan (estimated) 1920" = (none, some 1, some 1920) ∧
    parse_partial_date "1850" = (none, none, some 1850) := by
  exact ⟨fun _ => rfl, by decide, by decide, by decide, by decide⟩

/-- **C4.**  A line with fewer than two space-separated tokens is not a
no-op: `_parse_key_value` evaluates `bits[1]`, which raises `IndexError`
for the empty string, a bare newline, and any one-token line; a run of the
driver over a stream containing a blank line aborts with that error (and
with zero save calls) instead of skipping it. -/
theorem C4_short_line_raises_index_error :
    parse_key_value "" = .error .indexError ∧
    parse_key_value "\n" = .error .indexError ∧
    parse_key_value "0\n" = .error .indexError ∧
    parse_key_value "0 HEAD\n" = .ok ("HEAD", "") ∧
    parse_ged_file [0] ["0 @I1@ INDI\n", "\n", "1 SEX M\n", "0 TRLR\n"] =
      { calls := [], error := some .indexError } := by
  exact ⟨by decide, by decide, by decide, by decide, by decide⟩

/-- **C5 (counterexample).**  A `PLAC` line processed while an entity is
open with the `"BIRT"` block cursor set: the claim predicts that nothing
is stored and that the cursor is refreshed to `"PLAC"`; in fact the
handler's value *is* stored (into the open `"BIRT"` block) and the cursor
keeps its old tag. -/
theorem C5_nests_key_stores_value_counterexample :
    ¬ (stepKV [0]
        ⟨some { id := "I1", kind := .person, allowChanges := true,
                multilineKey := some "BIRT", multiData := [], data := [] }⟩
        "PLAC" "London" =
      .cont ⟨some { id := "I1", kind := .person, allowChanges := true,
                    multilineKey := some "PLAC", multiData := [], data := [] }⟩ []) ∧
    stepKV [0]
        ⟨some { id := "I1", kind := .person, allowChanges := true,
                multilineKey := some "BIRT", multiData := [], data := [] }⟩
        "PLAC" "London" =
      .cont ⟨some { id := "I1", kind := .person, allowChanges := true,
                    multilineKey := some "BIRT",
                    multiData := [("BIRT", [("PLAC", GedScalar.str "London")])],
                    data := [] }⟩ [] := by
  exact ⟨by decide, by decide⟩

/-- **C6 (counterexample).**  An unknown tag (`EVEN`) has opened a block;
the claim's example says a following `DATE` child line puts the parsed
date under the `EVEN` block, but the `DATE` handler raises
`AttributeError`, so the step aborts and nothing is stored anywhere. -/
theorem C6_unknown_then_date_counterexample :
    stepKV [0] ⟨some ⟨"I1", .person, true, some "EVEN", [], []⟩⟩
        "DATE" "1 Jan 1900" = .err .attributeError [] ∧
    ¬ (stepKV [0] ⟨some ⟨"I1", .person, true, some "EVEN", [], []⟩⟩
        "DATE" "1 Jan 1900" =
      .cont ⟨some ⟨"I1", .person, true, some "EVEN",
        [("EVEN", [("DATE", GedScalar.date (some 1) (some 1) (some 1900))])], []⟩⟩ []) := by
  exact ⟨by decide, by decide⟩

/-- **C9.**  The last-updated timestamp is not "absent rather than an
error" whenever the change block lacks a date entry: a non-empty `CHAN`
block without a `DATE` key makes `_extract_datetime` unpack `None`,
raising `TypeError` (contradicting its own doc comment).  The remaining
conjuncts check the documented successful cases: absent/empty block →
absent; full date with time → assembled; full date without time →
midnight; a date with a missing component → absent. -/
theorem C9_last_updated_missing_date_raises :
    DBObj.last_updated
        { id := "I1", kind := .person, allowChanges := true, multilineKey := none,
          multiData := [("CHAN", [("TIME", GedScalar.time 10 0 0)])], data := [] } =
      .error .typeError ∧
    DBObj.last_updated
        { id := "I1", kind := .person, allowChanges := true, multilineKey := none,
          multiData := [], data := [] } = .ok none ∧
    DBObj.last_updated
        { id := "I1", kind := .person, allowChanges := true, multilineKey := none,
          multiData := [("CHAN", [("DATE", GedScalar.date (some 15) (some 1) (some 1920)),
                                  ("TIME", GedScalar.time 10 30 0)])], data := [] } =
      .ok (some ⟨1920, 1, 15, 10, 30, 0⟩) ∧
    DBObj.last_updated
        { id := "I1", kind := .person, allowChanges := true, multilineKey := none,
          multiData := [("CHAN", [("DATE", GedScalar.date (some 2) (some 3) (some 1950))])],
          data := [] } =
      .ok (some ⟨1950, 3, 2, 0, 0, 0⟩) ∧
    DBObj.last_updated
        { id := "I1", kind := .person, allowChanges := true, multilineKey := none,
          multiData := [("CHAN", [("DATE", GedScalar.date none (some 1) (some 1920))])],
          data := [] } = .ok none := by
  exact ⟨by decide, by decide, by decide, by decide, by decide⟩

/-- **C2.**  A line whose key contains exactly two `'@'` characters, seen
while an accumulator is open, locks the accumulator and emits it exactly
once to every registered converter — `save_family` for the Family variant,
`save_person` otherwise — and the driver then continues with the
accumulator `_decide_next_obj` yields: a fresh one whose identifier is the
`@`-stripped key, of the kind the two-entry `INDI`/`FAM` mapping selects
(and no accumulator for an unrecognised value token). -/
theorem C2_boundary_locks_and_emits (convs : List Nat) (st : ParserState)
    (o : DBObj) (key value : String)
    (ho : st.lastObj = some o) (hk : countAts key = 2) :
    stepKV convs st key value =
      .cont ⟨decide_next_obj key value⟩ (convs.map fun c => (c, saveCallFor o.lock)) ∧
    (o.lock).allowChanges = false ∧
    (o.kind = .family → saveCallFor o.lock = .save_family o.lock) ∧
    (o.kind = .person → saveCallFor o.lock = .save_person o.lock) ∧
    (value = "INDI" → decide_next_obj key value = some (DBObj.new .person (stripAts key))) ∧
    (value = "FAM" → decide_next_obj key value = some (DBObj.new .family (stripAts key))) := by
  have hstop : key ≠ KEY_STOP := by
    intro h
    rw [h] at hk
    exact absurd hk (by decide)
  refine ⟨?_, rfl, ?_, ?_, ?_, ?_⟩
  · simp [stepKV, is_new_obj_line, hk, ho, hstop, save_to_converters]
  · intro h
    simp [saveCallFor, DBObj.lock, h]
  · intro h
    simp [saveCallFor, DBObj.lock, h]
  · intro h
    simp [decide_next_obj, TYPE_MAP, h]
  · intro h
    simp [decide_next_obj, TYPE_MAP, h]

theorem C2_boundary_locks_and_emits_witness :
    countAts "@I2@" = 2 ∧
    (stepKV [0, 1] ⟨some (DBObj.new .family "F1")⟩ "@I2@" "INDI" =
      .cont ⟨decide_next_obj "@I2@" "INDI"⟩
        ([0, 1].map fun c => (c, saveCallFor (DBObj.new .family "F1").lock)) ∧
    ((DBObj.new .family "F1").lock).allowChanges = false ∧
    ((DBObj.new .family "F1").kind = .family →
      saveCallFor (DBObj.new .family "F1").lock = .save_family (DBObj.new .family "F1").lock) ∧
    ((DBObj.new .family "F1").kind = .person →
      saveCallFor (DBObj.new .family "F1").lock = .save_person (DBObj.new .family "F1").lock) ∧
    ("INDI" = "INDI" →
      decide_next_obj "@I2@" "INDI" = some (DBObj.new .person (stripAts "@I2@"))) ∧
    ("INDI" = "FAM" →
      decide_next_obj "@I2@" "INDI" = some (DBObj.new .family (stripAts "@I2@")))) :=
  ⟨by decide,
   C2_boundary_locks_and_emits [0, 1] ⟨some (DBObj.new .family "F1")⟩
     (DBObj.new .family "F1") "@I2@" "INDI" rfl (by decide)⟩

/-- Helper: `set_data` on an unlocked accumulator, for a key outside
`_GED_LIST_KEYS`, always succeeds and leaves the multiline cursor as it
was. -/
theorem set_data_ok_of_not_list (o : DBObj) (k : String) (v : GedScalar)
    (hu : o.allowChanges = true) (hk : k ∉ GED_LIST_KEYS) :
    ∃ o', o.set_data k v = .ok o' ∧ o'.multilineKey = o.multilineKey := by
  by_cases hc : keyTruthy o.multilineKey
  · refine ⟨{ o with multiData := dset o.multiData (o.multilineKey.getD "") (dset ((dget o.multiData (o.multilineKey.getD "")).getD []) k v) }, ?_, rfl⟩
    simp [DBObj.set_data, hu, hc]
  · refine ⟨{ o with data := dset o.data k (.scalar v) }, ?_, rfl⟩
    simp [DBObj.set_data, hu, hc, hk]

/-- **C5 (amended).**  For a field line whose key is registered with the
nests marker (`DATE`, `TIME`, `PLAC`) while an entity is open, the driver
leaves the multiline cursor exactly as it was — it is neither cleared nor
set to this key — and, when the key's handler succeeds, the parsed value
*is* stored through `set_data` (into the currently open block when the
cursor is set, otherwise into the flat map).  It is unregistered keys, not
these, whose bare presence stashes nothing and becomes the block tag. -/
theorem C5_nests_key_keeps_cursor_and_stores (convs : List Nat) (st : ParserState)
    (o : DBObj) (key value : String) (p : GedScalar)
    (ho : st.lastObj = some o) (hu : o.allowChanges = true)
    (hkey : key = "DATE" ∨ key = "TIME" ∨ key = "PLAC")
    (hrun : runKeyHandler key value = .ok p) :
    ∃ o', o.set_data key p = .ok o' ∧
      stepKV convs st key value = .cont ⟨some o'⟩ [] ∧
      o'.multilineKey = o.multilineKey := by
  rcases hkey with h | h | h <;> subst h
  · exact absurd hrun (by simp [runKeyHandler, HANDLERS, handle_date, parse_partial_date_on_list])
  · have hh : handle_time value = .ok p := by
      have hreg : HANDLERS "TIME" = some (handle_time, true) := rfl
      simpa [runKeyHandler, hreg] using hrun
    obtain ⟨o', hset, hmk⟩ := set_data_ok_of_not_list o "TIME" p hu (by decide)
    refine ⟨o', hset, ?_, hmk⟩
    have hreg : HANDLERS "TIME" = some (handle_time, true) := rfl
    have hb : (is_new_obj_line "TIME" || ("TIME" == KEY_STOP)) = false := by decide
    simp [stepKV, hb, ho, hreg, hh, hset, Except.bind]
  · have hh : handle_string value = p := by
      have hreg : HANDLERS "PLAC" = some ((fun v => .ok (handle_string v)), true) := rfl
      simpa [runKeyHandler, hreg] using hrun
    obtain ⟨o', hset, hmk⟩ := set_data_ok_of_not_list o "PLAC" p hu (by decide)
    refine ⟨o', hset, ?_, hmk⟩
    have hreg : HANDLERS "PLAC" = some ((fun v => .ok (handle_string v)), true) := rfl
    have hb : (is_new_obj_line "PLAC" || ("PLAC" == KEY_STOP)) = false := by decide
    simp [stepKV, hb, ho, hreg, hh, hset, Except.bind]

theorem C5_nests_key_keeps_cursor_and_stores_witness :
    (DBObj.mk "I1" .person true (some "BIRT") [] []).allowChanges = true ∧
    (("PLAC" : String) = "DATE" ∨ ("PLAC" : String) = "TIME" ∨ ("PLAC" : String) = "PLAC") ∧
    runKeyHandler "PLAC" "London" = .ok (.str "London") ∧
    (∃ o', (DBObj.mk "I1" .person true (some "BIRT") [] []).set_data "PLAC" (.str "London") =
        .ok o' ∧
      stepKV [0] ⟨some (DBObj.mk "I1" .person true (some "BIRT") [] [])⟩ "PLAC" "London" =
        .cont ⟨some o'⟩ [] ∧
      o'.multilineKey = (DBObj.mk "I1" .person true (some "BIRT") [] []).multilineKey) :=
  ⟨rfl, by decide,
   by decide,
   C5_nests_key_keeps_cursor_and_stores [0]
     ⟨some (DBObj.mk "I1" .person true (some "BIRT") [] [])⟩
     (DBObj.mk "I1" .person true (some "BIRT") [] []) "PLAC" "London" (.str "London")
     rfl rfl (by decide) (by decide)⟩

/-- **C6 (amended).**  Nested-block routing is sticky: while an entity is
open with a (truthy) block cursor `mk`, a field line routes as follows —
an unregistered key replaces the cursor with itself and stores nothing; a
key registered with the nests marker whose handler succeeds stores the
parsed value under the open block `mk` (not in the flat map) and keeps the
cursor; a key registered as flat clears the cursor and stores its value in
the flat map.  In particular an unknown tag followed by a child tag whose
handler succeeds (e.g. `PLAC`) puts the child's value under the unknown
tag's block; for a `DATE` child the handler raises `AttributeError`
instead, so no value is stored (see the counterexample). -/
theorem C6_sticky_block_routing (convs : List Nat) (st : ParserState)
    (o : DBObj) (mk key value : String)
    (ho : st.lastObj = some o) (hu : o.allowChanges = true)
    (hmk : o.multilineKey = some mk) (hne : mk ≠ "")
    (hb : countAts key ≠ 2) (hs : key ≠ KEY_STOP) :
    (HANDLERS key = none →
      stepKV convs st key value = .cont ⟨some { o with multilineKey := some key }⟩ []) ∧
    (∀ h p, HANDLERS key = some (h, true) → h value = .ok p →
      stepKV convs st key value =
        .cont ⟨some { o with multiData := dset o.multiData mk (dset ((dget o.multiData mk).getD []) key p) }⟩ []) ∧
    (∀ h p, HANDLERS key = some (h, false) → h value = .ok p → key ∉ GED_LIST_KEYS →
      stepKV convs st key value =
        .cont ⟨some { o with multilineKey := none, data := dset o.data key (.scalar p) }⟩ []) := by
  have hbb : (is_new_obj_line key || (key == KEY_STOP)) = false := by
    simp [is_new_obj_line, hb, hs]
  refine ⟨?_, ?_, ?_⟩
  · intro hreg
    simp [stepKV, hbb, ho, hreg, DBObj.set_multiline_key, hu]
  · intro h p hreg hok
    have hset : o.set_data key p = .ok { o with multiData := dset o.multiData mk (dset ((dget o.multiData mk).getD []) key p) } := by
      simp [DBObj.set_data, hu, hmk, keyTruthy, hne]
    simp [stepKV, hbb, ho, hreg, hok, hset, Except.bind]
  · intro h p hreg hok hnl
    have hclr : o.set_multiline_key none = .ok { o with multilineKey := none } := by
      simp [DBObj.set_multiline_key, hu]
    have hset : DBObj.set_data { o with multilineKey := none } key p =
        .ok { o with multilineKey := none, data := dset o.data key (.scalar p) } := by
      simp [DBObj.set_data, hu, keyTruthy, hnl]
    simp [stepKV, hbb, ho, hreg, hok, hclr, hset, Except.bind]

theorem C6_sticky_block_routing_witness :
    (DBObj.mk "I1" .person true (some "EVEN") [] []).allowChanges = true ∧
    (DBObj.mk "I1" .person true (some "EVEN") [] []).multilineKey = some "EVEN" ∧
    ("EVEN" : String) ≠ "" ∧ countAts "PLAC" ≠ 2 ∧ ("PLAC" : String) ≠ KEY_STOP ∧
    ((HANDLERS "PLAC" = none →
      stepKV [0] ⟨some (DBObj.mk "I1" .person true (some "EVEN") [] [])⟩ "PLAC" "Paris" =
        .cont ⟨some { DBObj.mk "I1" .person true (some "EVEN") [] [] with multilineKey := some "PLAC" }⟩ []) ∧
    (∀ h p, HANDLERS "PLAC" = some (h, true) → h "Paris" = .ok p →
      stepKV [0] ⟨some (DBObj.mk "I1" .person true (some "EVEN") [] [])⟩ "PLAC" "Paris" =
        .cont ⟨some { DBObj.mk "I1" .person true (some "EVEN") [] [] with multiData := dset [] "EVEN" (dset ((dget ([] : Dict (Dict GedScalar)) "EVEN").getD []) "PLAC" p) }⟩ []) ∧
    (∀ h p, HANDLERS "PLAC" = some (h, false) → h "Paris" = .ok p → "PLAC" ∉ GED_LIST_KEYS →
      stepKV [0] ⟨some (DBObj.mk "I1" .person true (some "EVEN") [] [])⟩ "PLAC" "Paris" =
        .cont ⟨some { DBObj.mk "I1" .person true (some "EVEN") [] [] with multilineKey := none, data := dset [] "PLAC" (.scalar p) }⟩ [])) :=
  ⟨rfl, rfl, by decide, by decide, by decide,
   C6_sticky_block_routing [0] ⟨some (DBObj.mk "I1" .person true (some "EVEN") [] [])⟩
     (DBObj.mk "I1" .person true (some "EVEN") [] []) "EVEN" "PLAC" "Paris"
     rfl rfl rfl (by decide) (by decide) (by decide)⟩

/-- **C7.**  Within one entity, with no block cursor open, the allow-listed
list tags (`CHIL`, `_AKA`) accumulate: each `set_data` appends to the
stored list, keeping every earlier entry in order; any key outside the
allow-list is a last-write-wins scalar assignment.  The final conjunct
lifts this to the driver: a `CHIL`/`_AKA` field line appends through
`stepKV` regardless of any open cursor, because both tags are registered
as flat and so clear the cursor before writing. -/
theorem C7_list_append_scalar_overwrite (o : DBObj) (k : String) (v : GedScalar)
    (prev : List GedScalar) (hu : o.allowChanges = true) :
    (keyTruthy o.multilineKey = false → k ∈ GED_LIST_KEYS →
      dget o.data k = some (.vlist prev) →
      o.set_data k v = .ok { o with data := dset o.data k (.vlist (prev ++ [v])) }) ∧
    (keyTruthy o.multilineKey = false → k ∈ GED_LIST_KEYS → dget o.data k = none →
      o.set_data k v = .ok { o with data := dset o.data k (.vlist [v]) }) ∧
    (keyTruthy o.multilineKey = false → k ∉ GED_LIST_KEYS →
      o.set_data k v = .ok { o with data := dset o.data k (.scalar v) } ∧
      dget (dset o.data k (.scalar v)) k = some (.scalar v)) ∧
    (∀ convs st value p, st.lastObj = some o → k ∈ GED_LIST_KEYS →
      dget o.data k = some (.vlist prev) → runKeyHandler k value = .ok p →
      stepKV convs st k value =
        .cont ⟨some { o with multilineKey := none, data := dset o.data k (.vlist (prev ++ [p])) }⟩ []) := by
  refine ⟨?_, ?_, ?_, ?_⟩
  · intro hc hk hd
    simp [DBObj.set_data, hu, hc, hk, hd]
  · intro hc hk hd
    simp [DBObj.set_data, hu, hc, hk, hd]
  · intro hc hk
    exact ⟨by simp [DBObj.set_data, hu, hc, hk], dget_dset_self o.data k (.scalar v)⟩
  · intro convs st value p ho hk hd hrun
    have hclr : o.set_multiline_key none = .ok { o with multilineKey := none } := by
      simp [DBObj.set_multiline_key, hu]
    have hmem : k = "CHIL" ∨ k = "_AKA" := by simpa [GED_LIST_KEYS] using hk
    have hset : DBObj.set_data { o with multilineKey := none } k p =
        .ok { o with multilineKey := none, data := dset o.data k (.vlist (prev ++ [p])) } := by
      simp [DBObj.set_data, hu, keyTruthy, hk, hd]
    rcases hmem with h | h <;> subst h
    · have hreg : HANDLERS "CHIL" = some ((fun v => .ok (handle_link_id v)), false) := rfl
      have hp : handle_link_id value = p := by simpa [runKeyHandler, hreg] using hrun
      have hbb : (is_new_obj_line "CHIL" || ("CHIL" == KEY_STOP)) = false := by decide
      simp [stepKV, hbb, ho, hreg, hclr, hp, hset, Except.bind]
    · have hreg : HANDLERS "_AKA" = some ((fun v => .ok (handle_string v)), false) := rfl
      have hp : handle_string value = p := by simpa [runKeyHandler, hreg] using hrun
      have hbb : (is_new_obj_line "_AKA" || ("_AKA" == KEY_STOP)) = false := by decide
      simp [stepKV, hbb, ho, hreg, hclr, hp, hset, Except.bind]

theorem C7_list_append_scalar_overwrite_witness :
    (DBObj.mk "I1" .person true none [] [("CHIL", GedVal.vlist [GedScalar.str "a"])]).allowChanges = true ∧
    ((keyTruthy (DBObj.mk "I1" .person true none [] [("CHIL", GedVal.vlist [GedScalar.str "a"])]).multilineKey = false →
      ("CHIL" : String) ∈ GED_LIST_KEYS →
      dget (DBObj.mk "I1" .person true none [] [("CHIL", GedVal.vlist [GedScalar.str "a"])]).data "CHIL" = some (.vlist [GedScalar.str "a"]) →
      (DBObj.mk "I1" .person true none [] [("CHIL", GedVal.vlist [GedScalar.str "a"])]).set_data "CHIL" (.str "b") =
        .ok { DBObj.mk "I1" .person true none [] [("CHIL", GedVal.vlist [GedScalar.str "a"])] with
              data := dset (DBObj.mk "I1" .person true none [] [("CHIL", GedVal.vlist [GedScalar.str "a"])]).data "CHIL" (.vlist ([GedScalar.str "a"] ++ [.str "b"])) }) ∧
    (keyTruthy (DBObj.mk "I1" .person true none [] [("CHIL", GedVal.vlist [GedScalar.str "a"])]).multilineKey = false →
      ("CHIL" : String) ∈ GED_LIST_KEYS →
      dget (DBObj.mk "I1" .person true none [] [("CHIL", GedVal.vlist [GedScalar.str "a"])]).data "CHIL" = none →
      (DBObj.mk "I1" .person true none [] [("CHIL", GedVal.vlist [GedScalar.str "a"])]).set_data "CHIL" (.str "b") =
        .ok { DBObj.mk "I1" .person true none [] [("CHIL", GedVal.vlist [GedScalar.str "a"])] with
              data := dset (DBObj.mk "I1" .person true none [] [("CHIL", GedVal.vlist [GedScalar.str "a"])]).data "CHIL" (.vlist [.str "b"]) }) ∧
    (keyTruthy (DBObj.mk "I1" .person true none [] [("CHIL", GedVal.vlist [GedScalar.str "a"])]).multilineKey = false →
      ("CHIL" : String) ∉ GED_LIST_KEYS →
      (DBObj.mk "I1" .person true none [] [("CHIL", GedVal.vlist [GedScalar.str "a"])]).set_data "CHIL" (.str "b") =
        .ok { DBObj.mk "I1" .person true none [] [("CHIL", GedVal.vlist [GedScalar.str "a"])] with
              data := dset (DBObj.mk "I1" .person true none [] [("CHIL", GedVal.vlist [GedScalar.str "a"])]).data "CHIL" (.scalar (.str "b")) } ∧
      dget (dset (DBObj.mk "I1" .person true none [] [("CHIL", GedVal.vlist [GedScalar.str "a"])]).data "CHIL" (.scalar (.str "b"))) "CHIL" = some (.scalar (.str "b"))) ∧
    (∀ convs st value p,
      st.lastObj = some (DBObj.mk "I1" .person true none [] [("CHIL", GedVal.vlist [GedScalar.str "a"])]) →
      ("CHIL" : String) ∈ GED_LIST_KEYS →
      dget (DBObj.mk "I1" .person true none [] [("CHIL", GedVal.vlist [GedScalar.str "a"])]).data "CHIL" = some (.vlist [GedScalar.str "a"]) →
      runKeyHandler "CHIL" value = .ok p →
      stepKV convs st "CHIL" value =
        .cont ⟨some { DBObj.mk "I1" .person true none [] [("CHIL", GedVal.vlist [GedScalar.str "a"])] with
                      multilineKey := none,
                      data := dset (DBObj.mk "I1" .person true none [] [("CHIL", GedVal.vlist [GedScalar.str "a"])]).data "CHIL" (.vlist ([GedScalar.str "a"] ++ [p])) }⟩ [])) :=
  ⟨rfl,
   C7_list_append_scalar_overwrite
     (DBObj.mk "I1" .person true none [] [("CHIL", GedVal.vlist [GedScalar.str "a"])])
     "CHIL" (.str "b") [.str "a"] rfl⟩

/-- **C8.**  Once an entity is locked, both field writes (`set_data`,
`set_multiline_key`) are rejected with the `ERR_LOCKED` state error — the
check precedes any mutation, so the stored data is untouched (here: no
updated object is produced at all) — while before locking the same writes
succeed: `set_multiline_key` always, and `set_data` whenever a block
cursor is open, or the key is not list-valued, or the key is not yet
present (the cases jointly covering every state the driver can reach). -/
theorem C8_locked_writes_rejected (o : DBObj) (k : String) (mk : Option String)
    (v : GedScalar) :
    ((o.lock).set_data k v = .error (.valueError ERR_LOCKED)) ∧
    ((o.lock).set_multiline_key mk = .error (.valueError ERR_LOCKED)) ∧
    (o.allowChanges = false → o.set_data k v = .error (.valueError ERR_LOCKED)) ∧
    (o.allowChanges = false → o.set_multiline_key mk = .error (.valueError ERR_LOCKED)) ∧
    (o.allowChanges = true → o.set_multiline_key mk = .ok { o with multilineKey := mk }) ∧
    (o.allowChanges = true → keyTruthy o.multilineKey = true →
      ∃ o', o.set_data k v = .ok o') ∧
    (o.allowChanges = true → k ∉ GED_LIST_KEYS → ∃ o', o.set_data k v = .ok o') ∧
    (o.allowChanges = true → dget o.data k = none → ∃ o', o.set_data k v = .ok o') := by
  refine ⟨by simp [DBObj.set_data, DBObj.lock], by simp [DBObj.set_multiline_key, DBObj.lock],
    fun h => by simp [DBObj.set_data, h], fun h => by simp [DBObj.set_multiline_key, h],
    fun h => by simp [DBObj.set_multiline_key, h], fun hu hc => ?_,
    fun hu hk => ?_, fun hu hd => ?_⟩
  · refine ⟨{ o with multiData := dset o.multiData (o.multilineKey.getD "") (dset ((dget o.multiData (o.multilineKey.getD "")).getD []) k v) }, ?_⟩
    simp [DBObj.set_data, hu, hc]
  · obtain ⟨o', h, _⟩ := set_data_ok_of_not_list o k v hu hk
    exact ⟨o', h⟩
  · by_cases hc : keyTruthy o.multilineKey
    · refine ⟨{ o with multiData := dset o.multiData (o.multilineKey.getD "") (dset ((dget o.multiData (o.multilineKey.getD "")).getD []) k v) }, ?_⟩
      simp [DBObj.set_data, hu, hc]
    · by_cases hk : k ∈ GED_LIST_KEYS
      · refine ⟨{ o with data := dset o.data k (.vlist [v]) }, ?_⟩
        simp [DBObj.set_data, hu, hc, hk, hd]
      · refine ⟨{ o with data := dset o.data k (.scalar v) }, ?_⟩
        simp [DBObj.set_data, hu, hc, hk]

/-- **C10.**  While an entity is unlocked and a (truthy) block cursor `mk`
is open, `set_data` assigns the value into the open block's field map as a
plain scalar — for *every* key, including the `_GED_LIST_KEYS` allow-list,
whose append rule is only reachable with no open block — overwriting any
previous value under the same key, so two successive writes of the same
key inside one block keep only the second value, and the flat map is
untouched. -/
theorem C10_block_scalar_overwrite (o : DBObj) (mk k : String) (v w : GedScalar)
    (hu : o.allowChanges = true) (hmk : o.multilineKey = some mk) (hne : mk ≠ "") :
    o.set_data k v = .ok { o with multiData := dset o.multiData mk (dset ((dget o.multiData mk).getD []) k v) } ∧
    (∀ o', o.set_data k v = .ok o' →
      o'.data = o.data ∧ o'.multilineKey = o.multilineKey ∧
      dget ((dget o'.multiData mk).getD []) k = some v ∧
      o'.set_data k w = .ok { o' with multiData := dset o'.multiData mk (dset ((dget o'.multiData mk).getD []) k w) } ∧
      (∀ o'', o'.set_data k w = .ok o'' →
        dget ((dget o''.multiData mk).getD []) k = some w)) := by
  have hset : o.set_data k v = .ok { o with multiData := dset o.multiData mk (dset ((dget o.multiData mk).getD []) k v) } := by
    simp [DBObj.set_data, hu, hmk, keyTruthy, hne]
  refine ⟨hset, ?_⟩
  intro o' ho'
  rw [hset] at ho'
  have ho'' := (Except.ok.injEq _ _).mp ho'.symm
  subst ho''
  have hset2 : DBObj.set_data { o with multiData := dset o.multiData mk (dset ((dget o.multiData mk).getD []) k v) } k w =
      .ok { o with multiData := dset (dset o.multiData mk (dset ((dget o.multiData mk).getD []) k v)) mk (dset ((dget (dset o.multiData mk (dset ((dget o.multiData mk).getD []) k v)) mk).getD []) k w) } := by
    simp [DBObj.set_data, hu, hmk, keyTruthy, hne]
  refine ⟨rfl, rfl, by simp [dget_dset_self], ?_, ?_⟩
  · simpa using hset2
  · intro o'' ho''
    rw [hset2] at ho''
    have h3 := (Except.ok.injEq _ _).mp ho''.symm
    subst h3
    simp [dget_dset_self]

theorem C10_block_scalar_overwrite_witness :
    (DBObj.mk "I1" .person true (some "BIRT") [] []).allowChanges = true ∧
    (DBObj.mk "I1" .person true (some "BIRT") [] []).multilineKey = some "BIRT" ∧
    ("BIRT" : String) ≠ "" ∧
    ((DBObj.mk "I1" .person true (some "BIRT") [] []).set_data "DATE" (.date none none (some 1900)) =
      .ok { DBObj.mk "I1" .person true (some "BIRT") [] [] with
            multiData := dset [] "BIRT" (dset ((dget ([] : Dict (Dict GedScalar)) "BIRT").getD []) "DATE" (.date none none (some 1900))) } ∧
    (∀ o', (DBObj.mk "I1" .person true (some "BIRT") [] []).set_data "DATE" (.date none none (some 1900)) = .ok o' →
      o'.data = (DBObj.mk "I1" .person true (some "BIRT") [] []).data ∧
      o'.multilineKey = (DBObj.mk "I1" .person true (some "BIRT") [] []).multilineKey ∧
      dget ((dget o'.multiData "BIRT").getD []) "DATE" = some (.date none none (some 1900)) ∧
      o'.set_data "DATE" (.date none none (some 1901)) =
        .ok { o' with multiData := dset o'.multiData "BIRT" (dset ((dget o'.multiData "BIRT").getD []) "DATE" (.date none none (some 1901))) } ∧
      (∀ o'', o'.set_data "DATE" (.date none none (some 1901)) = .ok o'' →
        dget ((dget o''.multiData "BIRT").getD []) "DATE" = some (.date none none (some 1901))))) :=
  ⟨rfl, rfl, by decide,
   C10_block_scalar_overwrite (DBObj.mk "I1" .person true (some "BIRT") [] [])
     "BIRT" "DATE" (.date none none (some 1900)) (.date none none (some 1901))
     rfl rfl (by decide)⟩
